import Mathlib

/-!
Verification development for a rule-based intraday trading system
(two strategy variants: pullback-after-surge and breakout-consolidation,
plus a bar-by-bar backtest simulation engine and a live order lifecycle).

The Python source is shallowly embedded over exact rationals (ℚ):
  * prices/volumes are ℚ (Python floats are modelled as exact rationals;
    `round(x, 2)` is modelled as rounding `x * 100` to the nearest integer);
  * Python `int(x)` (truncation toward zero) is `pyint`;
  * bar dictionaries become the `Bar` structure; datetimes become `DateTime`
    (an abstract calendar day index plus hour/minute/second);
  * functions that return `None` on insufficient data return `Option`;
  * diagnostic message strings carried alongside booleans in the source are
    abstracted away: only the boolean and numeric outputs are modelled.
Division on ℚ is total with `x / 0 = 0` (where the Python source would raise
`ZeroDivisionError` on a zero denominator the embedding notes it at the
definition site).

Namespace `RC` embeds RossCameron-Strategy.py, namespace `BO` embeds
Breakout-Strategy.py, namespace `Engine` embeds the BacktestEngine of
RossCameron-Backtest.py, and namespace `Algo` embeds the order-lifecycle
guard of check_and_trade in RossCameron-Algo.py.
-/

/-- Python `round(x, 2)`: round to 2 decimal places (nearest cent). -/
def pyround2 (x : ℚ) : ℚ := (round (x * 100) : ℚ) / 100

/-- Python `int(x)`: truncation toward zero. -/
def pyint (x : ℚ) : ℤ := if 0 ≤ x then ⌊x⌋ else ⌈x⌉

/-- Python `max(l)` for a list of rationals (0 on the empty list; the
sources only apply it to nonempty lists). -/
def listMax : List ℚ → ℚ
  | [] => 0
  | x :: xs => xs.foldl max x

/-- Python `min(l)` for a list of rationals (0 on the empty list). -/
def listMin : List ℚ → ℚ
  | [] => 0
  | x :: xs => xs.foldl min x

/-- Python slice `l[-n:]`: the last `n` elements. -/
def takeLast {α : Type} (n : ℕ) (l : List α) : List α := l.drop (l.length - n)

/-- A zoned timestamp: an abstract calendar-day index plus wall-clock
hour/minute/second, mirroring the fields of a Python `datetime` the code
reads (`.date()`, `.hour`, `.minute`; comparisons). -/
structure DateTime where
  day : ℤ
  hour : ℕ
  minute : ℕ
  sec : ℕ
deriving DecidableEq, Repr, Inhabited

/-- Python `datetime` comparison `a <= b` (lexicographic by day then time). -/
def dtLe (a b : DateTime) : Bool :=
  if a.day ≠ b.day then a.day < b.day
  else if a.hour ≠ b.hour then a.hour < b.hour
  else if a.minute ≠ b.minute then a.minute < b.minute
  else a.sec ≤ b.sec

/-- An OHLCV bar record, as the dictionaries produced by the data fetcher
(`open` is `open_price` since `open` is a Lean keyword). -/
structure Bar where
  date : DateTime
  open_price : ℚ
  high : ℚ
  low : ℚ
  close : ℚ
  volume : ℚ
deriving DecidableEq, Repr, Inhabited

namespace RC

/-! StrategyConfig of RossCameron-Strategy.py (the parameters the embedded
functions read). `VOLUME_WICK_FACTOR` is the source's upper-wick / body
ratio parameter 1.5 (renamed). -/

def MACD_FAST : ℕ := 12
def MACD_SLOW : ℕ := 26
def MACD_SIGNAL : ℕ := 9
def PATTERN_LOOKBACK_BARS : ℕ := 30
def MIN_BARS_FOR_PATTERN : ℕ := 10
def MIN_SURGE_PCT : ℚ := 2
def SURGE_LOOKBACK_MIN : ℕ := 5
def SURGE_LOOKBACK_MAX : ℕ := 20
def MIN_PULLBACK_PCT : ℚ := 3/10
def MAX_PULLBACK_PCT : ℚ := 5
def RECENT_HIGH_LOOKBACK : ℕ := 15
def MIN_RELATIVE_VOLUME : ℚ := 3/2
def VOLUME_SPIKE_THRESHOLD : ℚ := 2
def VOLUME_WICK_FACTOR : ℚ := 3/2
def MAX_RED_CANDLES_IN_PULLBACK : ℕ := 4
def VOLUME_LOOKBACK_BARS : ℕ := 10
def TRADE_SIZE_DOLLARS : ℚ := 100
def COMMISSION_PER_SHARE : ℚ := 1/200
def COMMISSION_MINIMUM : ℚ := 1
def SEC_FEE_PER_DOLLAR : ℚ := 278/10000000
def PROFIT_TARGET_PCT : ℚ := 1/5
def ENTRY_SPREAD_PCT : ℚ := 1/500
def PREMARKET_START_HOUR : ℕ := 5
def PREMARKET_START_MINUTE : ℕ := 0
def MARKET_OPEN_HOUR : ℕ := 9
def MARKET_OPEN_MINUTE : ℕ := 30
def MARKET_CLOSE_HOUR : ℕ := 15
def MARKET_CLOSE_MINUTE : ℕ := 50
def END_OF_DAY_HOUR : ℕ := 15
def END_OF_DAY_MINUTE : ℕ := 50
def VWAP_LOOKBACK_BARS : ℕ := 390

/-- calculate_macd (RossCameron-Strategy.py): EMAs seeded with the first
close, recurrence `ema[i] = c[i]*α + ema[i-1]*(1-α)`; returns the final-bar
(macd, signal, histogram), or `none` if fewer closes than the slow period. -/
def calculate_macd (closes : List ℚ) : Option (ℚ × ℚ × ℚ) :=
  if closes.length < MACD_SLOW then none else
  match closes with
  | [] => none
  | c0 :: rest =>
    let alpha_fast : ℚ := 2 / ((MACD_FAST : ℚ) + 1)
    let alpha_slow : ℚ := 2 / ((MACD_SLOW : ℚ) + 1)
    let ema_fast := rest.scanl (fun e c => c * alpha_fast + e * (1 - alpha_fast)) c0
    let ema_slow := rest.scanl (fun e c => c * alpha_slow + e * (1 - alpha_slow)) c0
    let macd_line := List.zipWith (fun a b => a - b) ema_fast ema_slow
    match macd_line with
    | [] => none
    | m0 :: mrest =>
      let alpha_signal : ℚ := 2 / ((MACD_SIGNAL : ℚ) + 1)
      let signal_line := mrest.scanl (fun e c => c * alpha_signal + e * (1 - alpha_signal)) m0
      let histogram := List.zipWith (fun a b => a - b) macd_line signal_line
      some (macd_line.getLastD 0, signal_line.getLastD 0, histogram.getLastD 0)

/-- calculate_vwap (RossCameron-Strategy.py): accumulates
`total_pv` and `total_volume` over the bars exactly as the source loop does;
`none` when fewer than two bars or the total volume is zero. -/
def calculate_vwap (bars : List Bar) : Option ℚ :=
  if bars.length < 2 then none else
  let acc := bars.foldl
    (fun (a : ℚ × ℚ) b => (a.1 + ((b.high + b.low + b.close) / 3) * b.volume, a.2 + b.volume))
    (0, 0)
  if acc.2 = 0 then none else some (acc.1 / acc.2)

/-- check_macd_positive (RossCameron-Strategy.py): fails on fewer than
`MIN_BARS_FOR_PATTERN` bars or when the MACD is unavailable; requires the
MACD line above the signal line with a positive histogram. -/
def check_macd_positive (bars : List Bar) : Bool :=
  if bars.length < MIN_BARS_FOR_PATTERN then false else
  match calculate_macd (bars.map Bar.close) with
  | none => false
  | some (macd, signal, histogram) =>
    if macd ≤ signal then false
    else if histogram ≤ 0 then false
    else true

/-- One iteration of the surge-verification loop of
detect_pullback_and_new_high: for a given lookback, takes the segment
`recent[len-lookback-2 : -2]` and accepts when its high-to-low range is at
least `MIN_SURGE_PCT` percent of the low, yielding (segment_low,
segment_high). -/
def surge_probe (recent : List Bar) (lookback : ℕ) : Option (ℚ × ℚ) :=
  let check_start_idx : ℤ := (recent.length : ℤ) - lookback - 2
  if check_start_idx < 0 then none else
  let segment := (recent.take (recent.length - 2)).drop check_start_idx.toNat
  if segment.length < 3 then none else
  let segment_low := listMin (segment.map Bar.low)
  let segment_high := listMax (segment.map Bar.high)
  let surge_pct := ((segment_high - segment_low) / segment_low) * 100
  if surge_pct ≥ MIN_SURGE_PCT then some (segment_low, segment_high) else none

/-- detect_pullback_and_new_high (RossCameron-Strategy.py): surge of ≥2% in
an increasing 5..20-bar lookback, recent high in the last 15 bars (excluding
the last 2), a 0.3%–5% pullback after it, and a final bar making a higher
high, closing green, within 10% of the recent high. Returns
(pattern_found, pullback_low, recent_high); the diagnostic message string of
the source is not modelled. -/
def detect_pullback_and_new_high (bars : List Bar) : Bool × Option ℚ × Option ℚ :=
  if bars.length < MIN_BARS_FOR_PATTERN then (false, none, none) else
  let recent := if bars.length ≥ PATTERN_LOOKBACK_BARS
    then bars.drop (bars.length - PATTERN_LOOKBACK_BARS) else bars
  if recent.length < 8 then (false, none, none) else
  let upper := min (SURGE_LOOKBACK_MAX + 1) (recent.length - 2)
  match (List.range' SURGE_LOOKBACK_MIN (upper - SURGE_LOOKBACK_MIN)).findSome?
      (surge_probe recent) with
  | none => (false, none, none)
  | some _ =>
    let lookback_bars := min RECENT_HIGH_LOOKBACK (recent.length - 2)
    let recent_segment := (recent.take (recent.length - 2)).drop (recent.length - 2 - lookback_bars)
    if recent_segment.length < 3 then (false, none, none) else
    let highs := recent_segment.map Bar.high
    let recent_high := listMax highs
    let recent_high_idx := recent.length - lookback_bars - 2 + highs.indexOf recent_high
    if recent_high_idx ≥ recent.length - 2 then (false, none, none) else
    let bars_after_high := (recent.take (recent.length - 1)).drop (recent_high_idx + 1)
    if bars_after_high.length = 0 then (false, none, none) else
    let pullback_low := listMin (bars_after_high.map Bar.low)
    let pullback_pct := ((recent_high - pullback_low) / recent_high) * 100
    if pullback_pct < MIN_PULLBACK_PCT then (false, none, none) else
    if pullback_pct > MAX_PULLBACK_PCT then (false, none, none) else
    let last_bar := recent.getLastD default
    let second_last_bar := recent.getD (recent.length - 2) default
    if last_bar.high ≤ second_last_bar.high then (false, none, none) else
    if last_bar.close ≤ last_bar.open_price then (false, none, none) else
    let distance_from_high := ((recent_high - last_bar.close) / recent_high) * 100
    if distance_from_high > 10 then (false, none, none) else
    (true, some pullback_low, some recent_high)

/-- check_volume_conditions (RossCameron-Strategy.py): relative volume of
the last 2 bars vs the preceding history ≥ 1.5x, no volume-topping bar
(high volume with an upper wick 1.5x the body), and fewer than 4 of the last
5 candles red. -/
def check_volume_conditions (bars : List Bar) : Bool :=
  if bars.length < 5 then false else
  let recent := if bars.length ≥ VOLUME_LOOKBACK_BARS
    then takeLast VOLUME_LOOKBACK_BARS bars else bars
  if recent.length < 3 then false else
  let last_bar := recent.getLastD default
  let second_last_bar := recent.getD (recent.length - 2) default
  let history_bars := if recent.length > 2
    then recent.take (recent.length - 2) else recent.take (recent.length - 1)
  if history_bars.length = 0 then false else
  let avg_volume := (history_bars.map Bar.volume).sum / (history_bars.length : ℚ)
  let avg_last_2_bars := (last_bar.volume + second_last_bar.volume) / 2
  let relative_volume := if avg_volume > 0 then avg_last_2_bars / avg_volume else 0
  if relative_volume < MIN_RELATIVE_VOLUME then false else
  let upper_wick := last_bar.high - max last_bar.open_price last_bar.close
  let body_size := |last_bar.close - last_bar.open_price|
  if last_bar.volume > avg_volume * VOLUME_SPIKE_THRESHOLD ∧
     upper_wick > body_size * VOLUME_WICK_FACTOR then false else
  let red_candles := ((takeLast 5 recent).filter (fun b => b.close < b.open_price)).length
  if red_candles ≥ MAX_RED_CANDLES_IN_PULLBACK then false else
  true

/-- check_above_vwap (RossCameron-Strategy.py): the current price must be
strictly above the VWAP of the supplied bars. -/
def check_above_vwap (bars : List Bar) (current_price : ℚ) : Bool :=
  match calculate_vwap bars with
  | none => false
  | some vwap => if current_price ≤ vwap then false else true

/-- check_all_entry_conditions (RossCameron-Strategy.py): all four gates
(pattern, MACD, volume, VWAP), returning
(all_conditions_met, pullback_low, recent_high); the per-condition
diagnostic results dictionary is not modelled. -/
def check_all_entry_conditions (bars_1m : List Bar) (current_price : ℚ) :
    Bool × Option ℚ × Option ℚ :=
  let pat := detect_pullback_and_new_high bars_1m
  let macd_ok := check_macd_positive bars_1m
  let volume_ok := check_volume_conditions bars_1m
  let vwap_ok := check_above_vwap bars_1m current_price
  (pat.1 && macd_ok && volume_ok && vwap_ok, pat.2.1, pat.2.2)

/-- check_dynamic_exit (RossCameron-Strategy.py): candle-under-candle — the
latest bar's low strictly below the previous bar's low; false on fewer than
2 bars. -/
def check_dynamic_exit (bars : List Bar) : Bool :=
  if bars.length < 2 then false else
  let latest_bar := bars.getLastD default
  let previous_bar := bars.getD (bars.length - 2) default
  decide (latest_bar.low < previous_bar.low)

/-- check_stop_loss_hit: the bar's low at or below the stop price. -/
def check_stop_loss_hit (current_bar : Bar) (stop_price : ℚ) : Bool :=
  decide (current_bar.low ≤ stop_price)

/-- check_profit_target_hit: the bar's high at or above the profit price. -/
def check_profit_target_hit (current_bar : Bar) (profit_price : ℚ) : Bool :=
  decide (current_bar.high ≥ profit_price)

/-- check_end_of_day: at/after 15:50. -/
def check_end_of_day (current_time : DateTime) : Bool :=
  if current_time.hour = END_OF_DAY_HOUR ∧ current_time.minute ≥ END_OF_DAY_MINUTE then true
  else if current_time.hour > END_OF_DAY_HOUR then true
  else false

/-- calculate_position_size (RossCameron-Strategy.py): fixed $100 per trade,
`int(100 / entry_price)` shares, minimum 1; the account balance argument is
deliberately ignored by the source. (The source would raise
`ZeroDivisionError` at `entry_price = 0`; total ℚ division yields 0 shares
there, clamped to 1.) -/
def calculate_position_size (account_balance entry_price stop_price : ℚ) : ℤ :=
  let shares := pyint (TRADE_SIZE_DOLLARS / entry_price)
  max shares 1

/-- calculate_commission (RossCameron-Strategy.py): `$0.005` per share with
a `$1` minimum, plus the proportional SEC fee on sells. -/
def calculate_commission (shares : ℤ) (trade_value : ℚ) (is_sell : Bool) : ℚ :=
  let commission := max ((shares : ℚ) * COMMISSION_PER_SHARE) COMMISSION_MINIMUM
  if is_sell then commission + trade_value * SEC_FEE_PER_DOLLAR else commission

/-- The entry price computed by calculate_entry_exit_prices:
`round(current_price * (1 + spread), 2)`. -/
def entry_price_of (current_price : ℚ) : ℚ :=
  pyround2 (current_price * (1 + ENTRY_SPREAD_PCT))

/-- The stop price computed by calculate_entry_exit_prices: 1% below the
recent high for strong (>10%) breakouts, else 1% below the pullback low
(Python's falsy test `if recent_high` is the `recent_high = 0` case). -/
def stop_price_of (current_price pullback_low recent_high : ℚ) : ℚ :=
  let entry_price := entry_price_of current_price
  let breakout_pct := if recent_high = 0 then 0
    else ((entry_price - recent_high) / recent_high) * 100
  if breakout_pct > 10 then pyround2 (recent_high * (99/100))
  else pyround2 (pullback_low * (99/100))

/-- calculate_entry_exit_prices (RossCameron-Strategy.py): entry with a 0.2%
spread, structural stop with a 1% buffer, +20% profit target; the plan is
rejected when the stop is at/above the entry or closer than 2%.
(At `entry_price = 0` — current_price below $0.005 — the source raises
`ZeroDivisionError` computing `stop_distance_pct`; total ℚ division makes
that quotient 0 here.) -/
def calculate_entry_exit_prices (current_price pullback_low recent_high : ℚ) :
    Option (ℚ × ℚ × ℚ) :=
  let entry_price := entry_price_of current_price
  let stop_price := stop_price_of current_price pullback_low recent_high
  let profit_price := pyround2 (entry_price * (1 + PROFIT_TARGET_PCT))
  let stop_distance_pct := (entry_price - stop_price) / entry_price
  if stop_price ≥ entry_price ∨ stop_distance_pct < 2/100 then none
  else some (entry_price, stop_price, profit_price)

end RC

namespace BO

/-! StrategyConfig of Breakout-Strategy.py. -/

def MACD_FAST : ℕ := 12
def MACD_SLOW : ℕ := 26
def MACD_SIGNAL : ℕ := 9
def PATTERN_LOOKBACK_BARS : ℕ := 30
def MIN_BARS_FOR_PATTERN : ℕ := 10
def CONSOLIDATION_LOOKBACK : ℕ := 15
def MIN_CONSOLIDATION_BARS : ℕ := 5
def MAX_CONSOLIDATION_RANGE_PCT : ℚ := 3
def MIN_BREAKOUT_PCT : ℚ := 3/2
def BREAKOUT_MOMENTUM_BARS : ℕ := 3
def MIN_RELATIVE_VOLUME : ℚ := 2
def BREAKOUT_VOLUME_SPIKE : ℚ := 5/2
def VOLUME_LOOKBACK_BARS : ℕ := 10
def TRADE_SIZE_DOLLARS : ℚ := 100
def COMMISSION_PER_SHARE : ℚ := 1/200
def COMMISSION_MINIMUM : ℚ := 1
def SEC_FEE_PER_DOLLAR : ℚ := 278/10000000
def PROFIT_TARGET_PCT : ℚ := 1/4
def ENTRY_SPREAD_PCT : ℚ := 1/500

/-- calculate_macd (Breakout-Strategy.py): textually identical to the
RossCameron variant. -/
def calculate_macd (closes : List ℚ) : Option (ℚ × ℚ × ℚ) :=
  if closes.length < MACD_SLOW then none else
  match closes with
  | [] => none
  | c0 :: rest =>
    let alpha_fast : ℚ := 2 / ((MACD_FAST : ℚ) + 1)
    let alpha_slow : ℚ := 2 / ((MACD_SLOW : ℚ) + 1)
    let ema_fast := rest.scanl (fun e c => c * alpha_fast + e * (1 - alpha_fast)) c0
    let ema_slow := rest.scanl (fun e c => c * alpha_slow + e * (1 - alpha_slow)) c0
    let macd_line := List.zipWith (fun a b => a - b) ema_fast ema_slow
    match macd_line with
    | [] => none
    | m0 :: mrest =>
      let alpha_signal : ℚ := 2 / ((MACD_SIGNAL : ℚ) + 1)
      let signal_line := mrest.scanl (fun e c => c * alpha_signal + e * (1 - alpha_signal)) m0
      let histogram := List.zipWith (fun a b => a - b) macd_line signal_line
      some (macd_line.getLastD 0, signal_line.getLastD 0, histogram.getLastD 0)

/-- calculate_vwap (Breakout-Strategy.py): identical to the RossCameron
variant. -/
def calculate_vwap (bars : List Bar) : Option ℚ :=
  if bars.length < 2 then none else
  let acc := bars.foldl
    (fun (a : ℚ × ℚ) b => (a.1 + ((b.high + b.low + b.close) / 3) * b.volume, a.2 + b.volume))
    (0, 0)
  if acc.2 = 0 then none else some (acc.1 / acc.2)

/-- check_macd_positive (Breakout-Strategy.py): needs
`MIN_BARS_FOR_PATTERN + 2` bars, MACD above signal, and a histogram strictly
greater than the histogram recomputed on the closes without the last one
(momentum accelerating). -/
def check_macd_positive (bars : List Bar) : Bool :=
  if bars.length < MIN_BARS_FOR_PATTERN + 2 then false else
  let closes := bars.map Bar.close
  match calculate_macd closes with
  | none => false
  | some (macd, signal, histogram) =>
    if macd ≤ signal then false
    else
      match calculate_macd closes.dropLast with
      | none => false
      | some (_, _, histogram_prev) =>
        if histogram ≤ histogram_prev then false else true

/-- Scan body of detect_breakout_pattern (Breakout-Strategy.py), operating
on the `recent` window it computes: a tight (≤3%) consolidation in the
window before the last 3 bars, a breakout of ≥1.5% above the consolidation
high within the last 3 bars, and a final bar that closes green with a high
at/above `consolidation_high * 1.005`. Returns
(pattern_found, consolidation_low, consolidation_high). -/
def breakout_scan (recent : List Bar) : Bool × Option ℚ × Option ℚ :=
  if recent.length < 8 then (false, none, none) else
  let consolidation_end_idx := recent.length - BREAKOUT_MOMENTUM_BARS
  let consolidation_start_idx := consolidation_end_idx - CONSOLIDATION_LOOKBACK
  if consolidation_end_idx - consolidation_start_idx < MIN_CONSOLIDATION_BARS
    then (false, none, none) else
  let consolidation_bars := (recent.take consolidation_end_idx).drop consolidation_start_idx
  if consolidation_bars.length < MIN_CONSOLIDATION_BARS then (false, none, none) else
  let consolidation_high := listMax (consolidation_bars.map Bar.high)
  let consolidation_low := listMin (consolidation_bars.map Bar.low)
  let consolidation_range_pct := ((consolidation_high - consolidation_low) / consolidation_low) * 100
  if consolidation_range_pct > MAX_CONSOLIDATION_RANGE_PCT then (false, none, none) else
  let breakout_bars := takeLast BREAKOUT_MOMENTUM_BARS recent
  let breakout_high := listMax (breakout_bars.map Bar.high)
  if breakout_high ≤ consolidation_high then (false, none, none) else
  let breakout_pct := ((breakout_high - consolidation_high) / consolidation_high) * 100
  if breakout_pct < MIN_BREAKOUT_PCT then (false, none, none) else
  let last_bar := recent.getLastD default
  if last_bar.close ≤ last_bar.open_price then (false, none, none) else
  if last_bar.high < consolidation_high * (1 + 5/1000) then (false, none, none) else
  (true, some consolidation_low, some consolidation_high)

/-- detect_breakout_pattern (Breakout-Strategy.py), entry point: the
insufficient-data guard and the restriction to the most recent
`PATTERN_LOOKBACK_BARS` bars, followed by the scan over that window. -/
def detect_breakout_pattern (bars : List Bar) : Bool × Option ℚ × Option ℚ :=
  if bars.length < MIN_BARS_FOR_PATTERN then (false, none, none) else
  breakout_scan (if bars.length ≥ PATTERN_LOOKBACK_BARS
    then bars.drop (bars.length - PATTERN_LOOKBACK_BARS) else bars)

/-- check_volume_conditions (Breakout-Strategy.py): the last bar's volume
must be at least 2x, and in fact at least 2.5x, the average of the preceding
bars in the 10-bar window. -/
def check_volume_conditions (bars : List Bar) : Bool :=
  if bars.length < 5 then false else
  let recent := if bars.length ≥ VOLUME_LOOKBACK_BARS
    then takeLast VOLUME_LOOKBACK_BARS bars else bars
  if recent.length < 3 then false else
  let last_bar := recent.getLastD default
  let history_bars := recent.take (recent.length - 1)
  if history_bars.length = 0 then false else
  let avg_volume := (history_bars.map Bar.volume).sum / (history_bars.length : ℚ)
  let relative_volume := if avg_volume > 0 then last_bar.volume / avg_volume else 0
  if relative_volume < MIN_RELATIVE_VOLUME then false else
  if relative_volume < BREAKOUT_VOLUME_SPIKE then false else
  true

/-- check_above_vwap (Breakout-Strategy.py): identical to the RossCameron
variant. -/
def check_above_vwap (bars : List Bar) (current_price : ℚ) : Bool :=
  match calculate_vwap bars with
  | none => false
  | some vwap => if current_price ≤ vwap then false else true

/-- check_all_entry_conditions (Breakout-Strategy.py): pattern, MACD,
volume and VWAP gates; returns
(all_conditions_met, consolidation_low, consolidation_high). -/
def check_all_entry_conditions (bars_1m : List Bar) (current_price : ℚ) :
    Bool × Option ℚ × Option ℚ :=
  let pat := detect_breakout_pattern bars_1m
  let macd_ok := check_macd_positive bars_1m
  let volume_ok := check_volume_conditions bars_1m
  let vwap_ok := check_above_vwap bars_1m current_price
  (pat.1 && macd_ok && volume_ok && vwap_ok, pat.2.1, pat.2.2)

/-- check_dynamic_exit (Breakout-Strategy.py): first red candle after
entry; false on an empty bar list. -/
def check_dynamic_exit (bars : List Bar) : Bool :=
  if bars.length < 1 then false else
  let latest_bar := bars.getLastD default
  decide (latest_bar.close < latest_bar.open_price)

/-- check_stop_loss_hit (Breakout-Strategy.py). -/
def check_stop_loss_hit (current_bar : Bar) (stop_price : ℚ) : Bool :=
  decide (current_bar.low ≤ stop_price)

/-- check_profit_target_hit (Breakout-Strategy.py). -/
def check_profit_target_hit (current_bar : Bar) (profit_price : ℚ) : Bool :=
  decide (current_bar.high ≥ profit_price)

/-- calculate_position_size (Breakout-Strategy.py): identical to the
RossCameron variant. -/
def calculate_position_size (account_balance entry_price stop_price : ℚ) : ℤ :=
  let shares := pyint (TRADE_SIZE_DOLLARS / entry_price)
  max shares 1

/-- calculate_commission (Breakout-Strategy.py): identical to the
RossCameron variant. -/
def calculate_commission (shares : ℤ) (trade_value : ℚ) (is_sell : Bool) : ℚ :=
  let commission := max ((shares : ℚ) * COMMISSION_PER_SHARE) COMMISSION_MINIMUM
  if is_sell then commission + trade_value * SEC_FEE_PER_DOLLAR else commission

/-- The entry price computed by calculate_entry_exit_prices
(Breakout-Strategy.py). -/
def entry_price_of (current_price : ℚ) : ℚ :=
  pyround2 (current_price * (1 + ENTRY_SPREAD_PCT))

/-- The stop price computed by calculate_entry_exit_prices
(Breakout-Strategy.py): 2% below the consolidation low. -/
def stop_price_of (consolidation_low : ℚ) : ℚ :=
  pyround2 (consolidation_low * (98/100))

/-- calculate_entry_exit_prices (Breakout-Strategy.py): entry with a 0.2%
spread, stop 2% below the consolidation low, +25% profit target; rejected
when the stop is at/above the entry or closer than 2%. (Same
`ZeroDivisionError` caveat at `entry_price = 0` as the RossCameron
variant.) -/
def calculate_entry_exit_prices (current_price consolidation_low consolidation_high : ℚ) :
    Option (ℚ × ℚ × ℚ) :=
  let entry_price := entry_price_of current_price
  let stop_price := stop_price_of consolidation_low
  let profit_price := pyround2 (entry_price * (1 + PROFIT_TARGET_PCT))
  let stop_distance_pct := (entry_price - stop_price) / entry_price
  if stop_price ≥ entry_price ∨ stop_distance_pct < 2/100 then none
  else some (entry_price, stop_price, profit_price)

end BO

namespace Engine

/-! The BacktestEngine of RossCameron-Backtest.py. Console printing and the
final report formatting are not modelled; the engine state is the mutable
fields of the Python object. The strategy functions it calls are the shared
`RC` module, exactly as the Python import wires them. -/

/-- is_premarket (RossCameron-Backtest.py): 5:00 AM – 9:30 AM. -/
def is_premarket (dt : DateTime) : Bool :=
  if dt.hour > RC.PREMARKET_START_HOUR ∧ dt.hour < RC.MARKET_OPEN_HOUR then true
  else if dt.hour = RC.PREMARKET_START_HOUR ∧ dt.minute ≥ RC.PREMARKET_START_MINUTE then true
  else if dt.hour = RC.MARKET_OPEN_HOUR ∧ dt.minute < RC.MARKET_OPEN_MINUTE then true
  else false

/-- is_regular_hours (RossCameron-Backtest.py): 9:30 AM – 3:50 PM. -/
def is_regular_hours (dt : DateTime) : Bool :=
  if dt.hour > RC.MARKET_OPEN_HOUR ∧ dt.hour < RC.MARKET_CLOSE_HOUR then true
  else if dt.hour = RC.MARKET_OPEN_HOUR ∧ dt.minute ≥ RC.MARKET_OPEN_MINUTE then true
  else if dt.hour = RC.MARKET_CLOSE_HOUR ∧ dt.minute ≤ RC.MARKET_CLOSE_MINUTE then true
  else false

/-- The open-position record kept in `self.position`. -/
structure Position where
  entry_price : ℚ
  stop_price : ℚ
  profit_price : ℚ
  shares : ℤ
  entry_time : DateTime
  entry_bar_idx : ℕ
  buy_commission : ℚ
deriving DecidableEq, Repr, Inhabited

/-- The exit reasons the engine reports. -/
inductive ExitReason
  | stopLoss
  | profitTarget
  | dynamicExit
  | endOfDay
  | endOfBacktest
deriving DecidableEq, Repr

/-- A completed-trade ledger record. -/
structure Trade where
  entry_time : DateTime
  exit_time : DateTime
  entry_price : ℚ
  exit_price : ℚ
  shares : ℤ
  pnl : ℚ
  pnl_gross : ℚ
  commission : ℚ
  pnl_pct : ℚ
  exit_reason : ExitReason
deriving DecidableEq, Repr

/-- The mutable state of a BacktestEngine. -/
structure EngineState where
  initial_capital : ℚ
  capital : ℚ
  position : Option Position
  trades : List Trade
  equity_curve : List (DateTime × ℚ)
  trading_halted_today : Bool
  current_trading_date : Option ℤ
deriving DecidableEq, Repr

/-- BacktestEngine.check_entry_conditions: all shared entry gates plus the
engine's own affordability gate `entry_price * shares > capital → reject`;
returns the (entry_price, stop_price, profit_price, shares) tuple of an
approved entry, `none` otherwise. Python takes the current price from
`bars_10s[-1]` (the loop guarantees the list is nonempty; the empty case
maps to the default bar here). -/
def check_entry_conditions (capital : ℚ) (bars_10s bars_1m : List Bar) :
    Option (ℚ × ℚ × ℚ × ℤ) :=
  if bars_1m.length < 10 then none else
  let current_price := (bars_10s.getLastD default).close
  let r := RC.check_all_entry_conditions bars_1m current_price
  if r.1 = false ∨ r.2.1 = none then none else
  let pullback_low := r.2.1.getD 0
  let recent_high := r.2.2.getD 0
  match RC.calculate_entry_exit_prices current_price pullback_low recent_high with
  | none => none
  | some (entry_price, stop_price, profit_price) =>
    let shares := RC.calculate_position_size capital entry_price stop_price
    let cost := entry_price * (shares : ℚ)
    if cost > capital then none
    else some (entry_price, stop_price, profit_price, shares)

/-- BacktestEngine.enter_position: records the position and deducts
cost + buy commission from capital. -/
def enter_position (s : EngineState) (entry_price stop_price profit_price : ℚ)
    (shares : ℤ) (entry_time : DateTime) (entry_bar_idx : ℕ) : EngineState :=
  let cost := entry_price * (shares : ℚ)
  let buy_commission := RC.calculate_commission shares cost false
  { s with
    position := some ⟨entry_price, stop_price, profit_price, shares, entry_time,
      entry_bar_idx, buy_commission⟩,
    capital := s.capital - (cost + buy_commission) }

/-- BacktestEngine.exit_position: credits proceeds net of the sell
commission, appends the trade record, clears the position slot. -/
def exit_position (s : EngineState) (exit_price : ℚ) (exit_time : DateTime)
    (exit_reason : ExitReason) : EngineState :=
  match s.position with
  | none => s
  | some p =>
    let proceeds := exit_price * (p.shares : ℚ)
    let sell_commission := RC.calculate_commission p.shares proceeds true
    let pnl_gross := (exit_price - p.entry_price) * (p.shares : ℚ)
    let total_commission := p.buy_commission + sell_commission
    { s with
      capital := s.capital + (proceeds - sell_commission),
      trades := s.trades ++ [⟨p.entry_time, exit_time, p.entry_price, exit_price,
        p.shares, pnl_gross - total_commission, pnl_gross, total_commission,
        ((exit_price - p.entry_price) / p.entry_price) * 100, exit_reason⟩],
      position := none }

/-- BacktestEngine.check_exit_conditions: stop loss first, then profit
target, then the candle-under-candle dynamic exit on the bars since entry,
then the end-of-day cutoff; `none` when no position or no exit condition
holds. -/
def check_exit_conditions (position : Option Position) (bars_10s : List Bar)
    (current_time : DateTime) : Option (ℚ × ExitReason) :=
  match position with
  | none => none
  | some p =>
    let current_bar := bars_10s.getLastD default
    let current_price := current_bar.close
    if RC.check_stop_loss_hit current_bar p.stop_price then
      some (p.stop_price, ExitReason.stopLoss)
    else if RC.check_profit_target_hit current_bar p.profit_price then
      some (p.profit_price, ExitReason.profitTarget)
    else
      let bars_since_entry := bars_10s.drop p.entry_bar_idx
      if 2 ≤ bars_since_entry.length && RC.check_dynamic_exit bars_since_entry then
        some (current_price, ExitReason.dynamicExit)
      else if RC.check_end_of_day current_time then
        some (current_price, ExitReason.endOfDay)
      else none

/-- The entry block of the run_backtest loop body: entry conditions are
evaluated only when no position is held and trading is not halted for the
day; on approval the position is entered. -/
def entry_phase (s : EngineState) (recent_10s recent_1m : List Bar)
    (current_time : DateTime) (i : ℕ) : EngineState :=
  if s.position = none ∧ s.trading_halted_today = false then
    match check_entry_conditions s.capital recent_10s recent_1m with
    | none => s
    | some (entry_price, stop_price, profit_price, shares) =>
      enter_position s entry_price stop_price profit_price shares current_time i
  else s

/-- The day-tracking block at the top of the run_backtest loop body: when
the bar's calendar date differs from the tracked trading date (or no date is
tracked yet), adopt the new date and clear the day-halt flag. -/
def day_reset_phase (s : EngineState) (current_date : ℤ) : EngineState :=
  if s.current_trading_date = some current_date then s
  else { s with current_trading_date := some current_date,
                trading_halted_today := false }

/-- The exit block of the run_backtest loop body: with a position held,
check the exit conditions; on an exit, close the position and — when the
reason is END OF DAY — set the day-halt flag. -/
def exit_phase (s : EngineState) (recent_10s : List Bar)
    (current_time : DateTime) : EngineState :=
  match s.position with
  | none => s
  | some _ =>
    match check_exit_conditions s.position recent_10s current_time with
    | none => s
    | some (exit_price, exit_reason) =>
      let s' := exit_position s exit_price current_time exit_reason
      if exit_reason = ExitReason.endOfDay then
        { s' with trading_halted_today := true }
      else s'

/-- The equity-tracking block of the run_backtest loop body: every 360 bars
append a mark-to-market snapshot. -/
def equity_phase (s : EngineState) (current_bar : Bar)
    (current_time : DateTime) (i : ℕ) : EngineState :=
  if i % 360 = 0 then
    let equity := s.capital +
      (match s.position with
       | some p => (p.shares : ℚ) * current_bar.close
       | none => 0)
    { s with equity_curve := s.equity_curve ++ [(current_time, equity)] }
  else s

/-- One iteration of the run_backtest bar loop (RossCameron-Backtest.py):
(1) reset the day-halt flag when the bar's calendar date differs from the
tracked trading date; (2) with a position held, check exits (regardless of
trading hours) and, on an END OF DAY exit, halt trading for the rest of the
day; (3) outside pre-market and regular hours, `continue` (skipping entry
and the equity snapshot); (4) otherwise build the session 1-minute window,
run the entry phase, and append an hourly equity snapshot. -/
def backtest_step (bars_10s_list bars_1m_list : List Bar)
    (lookback_bars lookback_1m : ℕ) (s : EngineState) (i : ℕ) : EngineState :=
  let current_bar := bars_10s_list.getD i default
  let current_time := current_bar.date
  let s1 := day_reset_phase s current_time.day
  let recent_10s := (bars_10s_list.drop (i - lookback_bars)).take (lookback_bars + 1)
  let s2 := exit_phase s1 recent_10s current_time
  if ¬ is_premarket current_time ∧ ¬ is_regular_hours current_time then s2
  else
    let market_open_time : DateTime :=
      { current_time with hour := 9, minute := 30, sec := 0 }
    let recent_1m :=
      if current_time.hour < 9 ∨ (current_time.hour = 9 ∧ current_time.minute < 30) then
        takeLast lookback_1m (bars_1m_list.filter (fun b => dtLe b.date current_time))
      else
        bars_1m_list.filter
          (fun b => dtLe market_open_time b.date && dtLe b.date current_time)
    let s3 := entry_phase s2 recent_10s recent_1m current_time i
    equity_phase s3 current_bar current_time i

/-- BacktestEngine.run_backtest: folds the bar loop from the warm-up index
(360 bars) to the end, then force-closes any remaining position at the final
bar's close with reason END OF BACKTEST. -/
def run_backtest (bars_10s_list bars_1m_list : List Bar) (s0 : EngineState) :
    EngineState :=
  let lookback_bars := 360
  let s := (List.range' lookback_bars (bars_10s_list.length - lookback_bars)).foldl
    (backtest_step bars_10s_list bars_1m_list lookback_bars RC.VWAP_LOOKBACK_BARS) s0
  match s.position, bars_10s_list.getLast? with
  | some _, some final_bar =>
    exit_position s final_bar.close final_bar.date ExitReason.endOfBacktest
  | _, _ => s

end Engine

namespace Algo

/-! The per-symbol order-lifecycle tracking of check_and_trade in
RossCameron-Algo.py (lines 329–395). The broker/market-data calls inside
the early-return block are external collaborators and are not modelled; the
embedded function captures the state the code reads and writes and the
status it returns before proceeding to data fetching. -/

/-- The per-symbol mutable tracking dictionaries of the live trader,
gathered into one record (a missing dictionary key is the corresponding
`none` / `false`, matching the initialisation block at the top of
check_and_trade). -/
structure SymbolState where
  in_position : Bool
  pending_entry : Bool
  pending_entry_time : Option ℚ
  entry_order_id : Option ℕ
  premarket_entry : Bool
  stop_price : Option ℚ
  profit_target_price : Option ℚ
deriving DecidableEq, Repr

/-- The outcome of the guard section of check_and_trade: an early return
with status PENDING ENTRY or IN POSITION, or falling through to the
entry-evaluation logic. -/
inductive CheckStatus
  | pendingEntry
  | inPosition
  | proceed
deriving DecidableEq, Repr

/-- The guard section of check_and_trade (RossCameron-Algo.py lines
342–395), as a transition on the symbol state: if in position or pending
entry, return immediately with the matching status (line 343); otherwise
run the stale-pending-order block (lines 374–395), which cancels a pending
entry older than 300 seconds and clears the symbol's tracking. `now` is
`time.time()`. -/
def check_and_trade (s : SymbolState) (now : ℚ) : SymbolState × CheckStatus :=
  if s.in_position || s.pending_entry then
    (s, if s.pending_entry then CheckStatus.pendingEntry else CheckStatus.inPosition)
  else
    if s.pending_entry then
      match s.pending_entry_time with
      | some t =>
        if now - t > 300 then
          ({ s with
              pending_entry := false
              pending_entry_time := none
              entry_order_id := none
              premarket_entry := false
              stop_price := none
              profit_target_price := none },
           CheckStatus.proceed)
        else (s, CheckStatus.pendingEntry)
      | none => (s, CheckStatus.pendingEntry)
    else (s, CheckStatus.proceed)

/-- A symbol with an entry order submitted at `t = 0` that is still
unfilled: pending entry set, submission timestamp recorded, the entry order
id and protective price tracking populated. -/
def staleSymbolState : SymbolState :=
  { in_position := false,
    pending_entry := true,
    pending_entry_time := some 0,
    entry_order_id := some 41,
    premarket_entry := false,
    stop_price := some 5,
    profit_target_price := some 7 }

end Algo

/-! Concrete data used to evaluate the embedded code at specific inputs. -/

/-- A bar with the given OHLCV fields at the default timestamp. -/
def mkBar (o h l c v : ℚ) : Bar := ⟨default, o, h, l, c, v⟩

/-- A bar with the given timestamp and OHLCV fields. -/
def mkBarAt (d : DateTime) (o h l c v : ℚ) : Bar := ⟨d, o, h, l, c, v⟩

/-- One bar of a tight $9.90–$10.00 consolidation. -/
def retreatConsolidationBar : Bar := mkBar (995/100) 10 (99/10) (996/100) 1000

/-- A 10-bar window: 7 consolidation bars in $9.90–$10.00, then a 3-bar
breakout whose extreme is $10.30 while the final bar only reaches a high of
$10.06 (green, $10.00 → $10.05): the final bar's high is 2.3% below the
breakout extreme yet still above consolidation_high × 1.005. -/
def retreatBreakoutBars : List Bar :=
  List.replicate 7 retreatConsolidationBar ++
  [mkBar (101/10) (103/10) (101/10) (102/10) 1000,
   mkBar (101/10) (103/10) (101/10) (102/10) 1000,
   mkBar 10 (1006/100) 10 (1005/100) 1000]

/-- Bar `i` of a 30-bar 1-minute history on which every entry gate passes:
closes rise steadily from $10.00 to $10.29 (keeping MACD positive), bar 20
spikes to a high of $11.00, bars 21–28 hold lows of $10.50 (a 4.5%
pullback), the final bar makes a higher high and closes green, and the last
two bars carry double volume. -/
def affordBar (i : ℕ) : Bar :=
  let c : ℚ := 10 + (i : ℚ)/100
  let o : ℚ := c - 1/200
  let h : ℚ := if i = 20 then 11 else if i = 29 then 103/10 else c
  let l : ℚ := if i ≤ 20 then c - 1/100 else if i ≤ 28 then 21/2 else 1028/100
  let v : ℚ := if i ≥ 28 then 2000 else 1000
  ⟨default, o, h, l, c, v⟩

/-- The 30-bar 1-minute history on which all four entry conditions pass. -/
def affordBars1m : List Bar := (List.range 30).map affordBar

/-- A current 10-second bar whose close ($20) sits far above the 1-minute
VWAP, making the resulting trade cost exceed a $50 capital. -/
def affordBars10s : List Bar := [mkBar 20 20 20 20 1000]

/-- The trade plan produced by RC.calculate_entry_exit_prices 10 9 (48/5)
— entry $10.02, stop $8.91, target $12.02 — held as an open position. -/
def roundtripPosition : Engine.Position :=
  ⟨501/50, 891/100, 601/50, 9, default, 0, 1⟩

/-- A noon timestamp (before the end-of-day cutoff). -/
def noonTime : DateTime := ⟨0, 12, 0, 0⟩

/-- A bar whose low equals the stop price $8.91. -/
def stopTouchBar : Bar := mkBar 9 9 (891/100) 9 100

/-- A bar whose high equals the profit target $12.02 and whose low stays
above the stop. -/
def targetTouchBar : Bar := mkBar 12 (601/50) 12 12 100

/-- A bar hitting both the stop ($8.50 low) and the target ($13 high). -/
def bothTouchBar : Bar := mkBar 10 13 (85/10) 9 100

/-- An open position with stop $1 and target $1000 (so only the end-of-day
exit can fire on `eodBar`). -/
def eodPosition : Engine.Position := ⟨10, 1, 1000, 5, default, 0, 1⟩

/-- A 15:50 bar on day 0 (at the end-of-day cutoff) that touches neither
stop nor target of `eodPosition`. -/
def eodBar : Bar := mkBarAt ⟨0, 15, 50, 0⟩ 5 6 5 (11/2) 100

/-- An engine holding `eodPosition` on trading day 0. -/
def eodState : Engine.EngineState := ⟨500, 400, some eodPosition, [], [], false, some 0⟩

/-- An engine with no position whose trading is already halted for day 0. -/
def haltedState : Engine.EngineState := ⟨500, 500, none, [], [], true, some 0⟩

/-- A 12:00 bar on day 0 (inside regular hours). -/
def day0Bar : Bar := mkBarAt ⟨0, 12, 0, 0⟩ 10 10 10 10 100

/-- Two bars of VWAP data: typical prices $1 and $5/3, volumes 3 and 1. -/
def vwapTwoBars : List Bar := [mkBar 1 2 0 1 3, mkBar 1 4 0 1 1]

/-! Theorems. -/

set_option maxRecDepth 100000

/-- Rounding to the nearest integer is monotone. -/
theorem round_rat_mono {x y : ℚ} (h : x ≤ y) : round x ≤ round y := by
  rw [round_eq, round_eq]
  exact Int.floor_mono (by linarith)

/-- pyround2 is monotone. -/
theorem pyround2_mono {x y : ℚ} (h : x ≤ y) : pyround2 x ≤ pyround2 y := by
  unfold pyround2
  have hr : round (x * 100) ≤ round (y * 100) := round_rat_mono (by linarith)
  have hc : ((round (x * 100) : ℤ) : ℚ) ≤ ((round (y * 100) : ℤ) : ℚ) := by exact_mod_cast hr
  exact (div_le_div_iff_of_pos_right (by norm_num : (0:ℚ) < 100)).mpr hc

/-- pyround2 fixes any whole number of cents. -/
theorem pyround2_cents (k : ℤ) : pyround2 ((k : ℚ) / 100) = (k : ℚ) / 100 := by
  unfold pyround2
  rw [div_mul_cancel₀ _ (by norm_num : (100 : ℚ) ≠ 0), round_intCast]

/-- Unfolding the VWAP accumulator loop: the running pair is the pair of
partial sums. -/
theorem vwap_foldl_eq (bars : List Bar) (x y : ℚ) :
    bars.foldl
      (fun (a : ℚ × ℚ) b => (a.1 + ((b.high + b.low + b.close) / 3) * b.volume, a.2 + b.volume))
      (x, y)
    = (x + (bars.map (fun b => ((b.high + b.low + b.close) / 3) * b.volume)).sum,
       y + (bars.map Bar.volume).sum) := by
  induction bars generalizing x y with
  | nil => simp
  | cons b t ih =>
    rw [List.foldl_cons, ih, List.map_cons, List.map_cons, List.sum_cons, List.sum_cons]
    simp only [Prod.mk.injEq]
    constructor <;> ring

/-- C5: for any share count ≥ 1 (and any trade value) the commission is at
least the configured $1.00 minimum, and for identical share count and trade
value with positive trade value, the sell-side commission strictly exceeds
the buy-side commission, by exactly the proportional SEC fee — in both
strategy variants. -/
theorem commission_minimum_and_sec_fee (shares : ℤ) (trade_value : ℚ)
    (hs : 1 ≤ shares) (hv : 0 < trade_value) :
    (1 ≤ RC.calculate_commission shares trade_value false ∧
     1 ≤ RC.calculate_commission shares trade_value true ∧
     RC.calculate_commission shares trade_value false <
       RC.calculate_commission shares trade_value true ∧
     RC.calculate_commission shares trade_value true =
       RC.calculate_commission shares trade_value false +
         trade_value * RC.SEC_FEE_PER_DOLLAR) ∧
    (1 ≤ BO.calculate_commission shares trade_value false ∧
     1 ≤ BO.calculate_commission shares trade_value true ∧
     BO.calculate_commission shares trade_value false <
       BO.calculate_commission shares trade_value true ∧
     BO.calculate_commission shares trade_value true =
       BO.calculate_commission shares trade_value false +
         trade_value * BO.SEC_FEE_PER_DOLLAR) := by
  have hfee : 0 < trade_value * (278 / 10000000 : ℚ) := by positivity
  constructor
  · unfold RC.calculate_commission RC.COMMISSION_MINIMUM RC.COMMISSION_PER_SHARE
      RC.SEC_FEE_PER_DOLLAR
    refine ⟨le_max_right _ _, ?_, ?_, rfl⟩
    · simp only [if_true]
      exact le_add_of_le_of_nonneg (le_max_right _ _) hfee.le
    · simp only [if_true]
      exact lt_add_of_pos_right _ hfee
  · unfold BO.calculate_commission BO.COMMISSION_MINIMUM BO.COMMISSION_PER_SHARE
      BO.SEC_FEE_PER_DOLLAR
    refine ⟨le_max_right _ _, ?_, ?_, rfl⟩
    · simp only [if_true]
      exact le_add_of_le_of_nonneg (le_max_right _ _) hfee.le
    · simp only [if_true]
      exact lt_add_of_pos_right _ hfee

/-- C5 witness: the commission facts evaluated at 2 shares and a $50 trade
value. -/
theorem commission_minimum_and_sec_fee_checked :
    1 ≤ RC.calculate_commission 2 50 false ∧
    RC.calculate_commission 2 50 false < RC.calculate_commission 2 50 true := by
  have h := commission_minimum_and_sec_fee 2 50 (by norm_num) (by norm_num)
  exact ⟨h.1.1, h.1.2.2.1⟩

/-- Closed form of RC.calculate_vwap in terms of the two sums. -/
theorem rc_calculate_vwap_eq (bars : List Bar) :
    RC.calculate_vwap bars =
      if bars.length < 2 then none
      else if (bars.map Bar.volume).sum = 0 then none
      else some ((bars.map (fun b => ((b.high + b.low + b.close) / 3) * b.volume)).sum /
        (bars.map Bar.volume).sum) := by
  have h := vwap_foldl_eq bars 0 0
  simp only [zero_add] at h
  unfold RC.calculate_vwap
  simp only [h]

/-- Closed form of BO.calculate_vwap in terms of the two sums. -/
theorem bo_calculate_vwap_eq (bars : List Bar) :
    BO.calculate_vwap bars =
      if bars.length < 2 then none
      else if (bars.map Bar.volume).sum = 0 then none
      else some ((bars.map (fun b => ((b.high + b.low + b.close) / 3) * b.volume)).sum /
        (bars.map Bar.volume).sum) := by
  have h := vwap_foldl_eq bars 0 0
  simp only [zero_add] at h
  unfold BO.calculate_vwap
  simp only [h]

/-- C7: calculate_vwap returns none exactly when fewer than two bars are
supplied or the total volume is zero, and otherwise returns the
volume-weighted average of the typical price (high+low+close)/3 — in both
strategy variants. -/
theorem vwap_characterisation (bars : List Bar) :
    (RC.calculate_vwap bars = none ↔
      bars.length < 2 ∨ (bars.map Bar.volume).sum = 0) ∧
    (∀ v, RC.calculate_vwap bars = some v →
      v = (bars.map (fun b => ((b.high + b.low + b.close) / 3) * b.volume)).sum /
          (bars.map Bar.volume).sum) ∧
    (BO.calculate_vwap bars = none ↔
      bars.length < 2 ∨ (bars.map Bar.volume).sum = 0) ∧
    (∀ v, BO.calculate_vwap bars = some v →
      v = (bars.map (fun b => ((b.high + b.low + b.close) / 3) * b.volume)).sum /
          (bars.map Bar.volume).sum) := by
  rw [rc_calculate_vwap_eq, bo_calculate_vwap_eq]
  by_cases h1 : bars.length < 2
  · simp [h1]
  · by_cases h2 : (bars.map Bar.volume).sum = 0
    · simp [h1, h2]
    · refine ⟨by simp [h1, h2], ?_, by simp [h1, h2], ?_⟩ <;>
        · intro v hv
          simp only [if_neg h1, if_neg h2, Option.some.injEq] at hv
          exact hv.symm

/-- C7 witness: on the 2-bar example the VWAP is the weighted typical
price (3·1 + 1·(5/3)) / 4 = 7/6, and the none-characterisation agrees. -/
theorem vwap_characterisation_checked :
    (7/6 : ℚ) = ((vwapTwoBars.map
        (fun b => ((b.high + b.low + b.close) / 3) * b.volume)).sum) /
      (vwapTwoBars.map Bar.volume).sum := by
  refine (vwap_characterisation vwapTwoBars).2.1 (7/6) ?_
  with_unfolding_all decide

/-- RC.calculate_macd returns none on fewer closes than the slow period. -/
theorem rc_calculate_macd_short (closes : List ℚ) (h : closes.length < RC.MACD_SLOW) :
    RC.calculate_macd closes = none := by
  unfold RC.calculate_macd
  rw [if_pos h]

/-- BO.calculate_macd returns none on fewer closes than the slow period. -/
theorem bo_calculate_macd_short (closes : List ℚ) (h : closes.length < BO.MACD_SLOW) :
    BO.calculate_macd closes = none := by
  unfold BO.calculate_macd
  rw [if_pos h]

/-- C6: on bar sequences shorter than each check's minimum required length,
every check function of both strategy variants returns its no-match / false
result (the embedded functions are total, so no exception is possible):
pattern detection below 10 bars, the MACD check below the 26-bar slow
period, the volume check below 5 bars, and the dynamic-exit check below its
2-bar (pullback variant) or 1-bar (breakout variant) minimum. -/
theorem short_input_fail_closed (bars : List Bar) :
    (bars.length < RC.MIN_BARS_FOR_PATTERN →
      RC.detect_pullback_and_new_high bars = (false, none, none)) ∧
    (bars.length < RC.MACD_SLOW → RC.check_macd_positive bars = false) ∧
    (bars.length < 5 → RC.check_volume_conditions bars = false) ∧
    (bars.length < 2 → RC.check_dynamic_exit bars = false) ∧
    (bars.length < BO.MIN_BARS_FOR_PATTERN →
      BO.detect_breakout_pattern bars = (false, none, none)) ∧
    (bars.length < BO.MACD_SLOW → BO.check_macd_positive bars = false) ∧
    (bars.length < 5 → BO.check_volume_conditions bars = false) ∧
    (bars.length < 1 → BO.check_dynamic_exit bars = false) := by
  refine ⟨?_, ?_, ?_, ?_, ?_, ?_, ?_, ?_⟩
  · intro h
    unfold RC.detect_pullback_and_new_high
    rw [if_pos h]
  · intro h
    unfold RC.check_macd_positive
    by_cases h10 : bars.length < RC.MIN_BARS_FOR_PATTERN
    · rw [if_pos h10]
    · rw [if_neg h10, rc_calculate_macd_short _ (by simpa using h)]
  · intro h
    unfold RC.check_volume_conditions
    rw [if_pos h]
  · intro h
    unfold RC.check_dynamic_exit
    rw [if_pos h]
  · intro h
    unfold BO.detect_breakout_pattern
    rw [if_pos h]
  · intro h
    unfold BO.check_macd_positive
    by_cases h12 : bars.length < BO.MIN_BARS_FOR_PATTERN + 2
    · rw [if_pos h12]
    · rw [if_neg h12]
      have hm := bo_calculate_macd_short (bars.map Bar.close) (by simpa using h)
      simp only [hm]
  · intro h
    unfold BO.check_volume_conditions
    rw [if_pos h]
  · intro h
    unfold BO.check_dynamic_exit
    rw [if_pos h]

/-- C6 witness: the fail-closed results on the empty bar sequence. -/
theorem short_input_fail_closed_checked :
    RC.detect_pullback_and_new_high [] = (false, none, none) ∧
    RC.check_macd_positive [] = false ∧
    RC.check_volume_conditions [] = false ∧
    RC.check_dynamic_exit [] = false ∧
    BO.detect_breakout_pattern [] = (false, none, none) ∧
    BO.check_macd_positive [] = false ∧
    BO.check_volume_conditions [] = false ∧
    BO.check_dynamic_exit [] = false := by
  have h := short_input_fail_closed []
  exact ⟨h.1 (by decide), h.2.1 (by decide), h.2.2.1 (by decide), h.2.2.2.1 (by decide),
    h.2.2.2.2.1 (by decide), h.2.2.2.2.2.1 (by decide), h.2.2.2.2.2.2.1 (by decide),
    h.2.2.2.2.2.2.2 (by decide)⟩

/-- C3: the simulation engine evaluates entries only when no position is
held (the position slot is a single `Option`, so two simultaneous positions
are unrepresentable, exactly as in the engine's single `self.position`
slot): whenever a position is open, the entry phase of the bar loop is a
no-op — the state, hence the capital, the trade ledger, and the single
position, are unchanged. -/
theorem entry_noop_while_in_position (s : Engine.EngineState)
    (recent_10s recent_1m : List Bar) (current_time : DateTime) (i : ℕ)
    (p : Engine.Position) (hp : s.position = some p) :
    Engine.entry_phase s recent_10s recent_1m current_time i = s := by
  unfold Engine.entry_phase
  rw [if_neg]
  intro hc
  rw [hp] at hc
  exact Option.some_ne_none p hc.1

/-- C3 witness: the entry phase applied to a concrete engine holding a
position leaves the state untouched. -/
theorem entry_noop_while_in_position_checked :
    Engine.entry_phase eodState affordBars10s affordBars1m noonTime 0 = eodState :=
  entry_noop_while_in_position eodState affordBars10s affordBars1m noonTime 0
    eodPosition rfl

/-- Auxiliary for C4: the entry phase is also a no-op whenever trading is
halted for the day. -/
theorem entry_phase_of_halted (s : Engine.EngineState)
    (recent_10s recent_1m : List Bar) (current_time : DateTime) (i : ℕ)
    (hh : s.trading_halted_today = true) :
    Engine.entry_phase s recent_10s recent_1m current_time i = s := by
  unfold Engine.entry_phase
  rw [if_neg]
  intro hc
  rw [hh] at hc
  simp at hc

/-- C9: the code cannot cancel a stale pending entry. With a pending entry
submitted at `t = 0` and still unfilled at `t = 310` (beyond the 300-second
staleness timeout), check_and_trade returns from the early in-position /
pending-entry guard with status PENDING ENTRY and the symbol state — the
pending flag, its timestamp, and the live entry order id — completely
unchanged: the stale-order cancellation block is unreachable, because every
path on which `pending_entry` is true has already returned before it. -/
theorem stale_pending_entry_not_cancelled :
    Algo.check_and_trade Algo.staleSymbolState 310 =
      (Algo.staleSymbolState, Algo.CheckStatus.pendingEntry) ∧
    Algo.staleSymbolState.pending_entry = true ∧
    Algo.staleSymbolState.pending_entry_time = some 0 ∧
    ((310 : ℚ) - 0 > 300) := by
  refine ⟨rfl, rfl, rfl, by norm_num⟩

/-- pyround2 is idempotent (its image is the whole cents). -/
theorem pyround2_idempotent (x : ℚ) : pyround2 (pyround2 x) = pyround2 x := by
  unfold pyround2
  rw [div_mul_cancel₀ _ (by norm_num : (100:ℚ) ≠ 0), round_intCast]

/-- Scaling a positive rounded price up by a factor `1 + t` (`t ≥ 0`) and
rounding again can not go below the price. -/
theorem le_pyround2_scale (x t : ℚ) (hx : 0 < pyround2 x) (ht : 0 ≤ t) :
    pyround2 x ≤ pyround2 (pyround2 x * (1 + t)) := by
  have h1 : pyround2 (pyround2 x) = pyround2 x := pyround2_idempotent x
  have h2 : pyround2 x ≤ pyround2 x * (1 + t) := by nlinarith
  calc pyround2 x = pyround2 (pyround2 x) := h1.symm
    _ ≤ pyround2 (pyround2 x * (1 + t)) := pyround2_mono h2

/-- C2 counterexample: at the positive current price $0.01 (with pullback
low and recent high $0.001), the pullback-variant calculate_entry_exit_prices
returns the non-null plan (entry $0.01, stop $0.00, target $0.01) whose
profit price equals — does not exceed — the entry price, refuting
`profit_price > entry_price` as stated. -/
theorem trade_plan_profit_not_above_entry :
    RC.calculate_entry_exit_prices (1/100) (1/1000) (1/1000) =
      some (1/100, 0, 1/100) ∧
    ¬ ((1 : ℚ)/100 < (1 : ℚ)/100) :=
  ⟨by with_unfolding_all decide, by norm_num⟩

/-- C2 (amended): for every current price whose rounded entry price is
positive (current_price ≥ $0.005; below that the Python source divides by a
zero entry price) and every reference pair, calculate_entry_exit_prices of
either variant returns the null plan exactly when the computed stop price is
at/above the computed entry price or the relative stop distance is below the
2% floor; every non-null plan satisfies stop_price < entry_price,
(entry_price - stop_price)/entry_price ≥ 2%, and profit_price ≥ entry_price
(equality is possible for entry prices below $0.03, as the counterexample
shows). -/
theorem trade_plan_validation (cp pl rh : ℚ) (hcp : 0 < cp)
    (hrc : 0 < RC.entry_price_of cp) (hbo : 0 < BO.entry_price_of cp) :
    ((RC.calculate_entry_exit_prices cp pl rh = none ↔
        RC.stop_price_of cp pl rh ≥ RC.entry_price_of cp ∨
        (RC.entry_price_of cp - RC.stop_price_of cp pl rh) / RC.entry_price_of cp
          < 2/100) ∧
     (∀ e st pf, RC.calculate_entry_exit_prices cp pl rh = some (e, st, pf) →
        st < e ∧ (e - st) / e ≥ 2/100 ∧ e ≤ pf)) ∧
    ((BO.calculate_entry_exit_prices cp pl rh = none ↔
        BO.stop_price_of pl ≥ BO.entry_price_of cp ∨
        (BO.entry_price_of cp - BO.stop_price_of pl) / BO.entry_price_of cp
          < 2/100) ∧
     (∀ e st pf, BO.calculate_entry_exit_prices cp pl rh = some (e, st, pf) →
        st < e ∧ (e - st) / e ≥ 2/100 ∧ e ≤ pf)) := by
  constructor
  · constructor
    · by_cases hcond : RC.stop_price_of cp pl rh ≥ RC.entry_price_of cp ∨
          (RC.entry_price_of cp - RC.stop_price_of cp pl rh) / RC.entry_price_of cp
            < 2/100
      · simp [RC.calculate_entry_exit_prices, hcond]
      · simp [RC.calculate_entry_exit_prices, hcond]
    · intro e st pf hsome
      unfold RC.calculate_entry_exit_prices at hsome
      by_cases hcond : RC.stop_price_of cp pl rh ≥ RC.entry_price_of cp ∨
          (RC.entry_price_of cp - RC.stop_price_of cp pl rh) / RC.entry_price_of cp
            < 2/100
      · simp [hcond] at hsome
      · push_neg at hcond
        simp only [if_neg (by push_neg; exact hcond :
          ¬ (RC.stop_price_of cp pl rh ≥ RC.entry_price_of cp ∨
            (RC.entry_price_of cp - RC.stop_price_of cp pl rh) / RC.entry_price_of cp
              < 2/100)), Option.some.injEq, Prod.mk.injEq] at hsome
        obtain ⟨he, hst, hpf⟩ := hsome
        subst he
        subst hst
        subst hpf
        refine ⟨hcond.1, hcond.2, ?_⟩
        have := le_pyround2_scale (cp * (1 + RC.ENTRY_SPREAD_PCT)) RC.PROFIT_TARGET_PCT
          (by exact hrc) (by norm_num [RC.PROFIT_TARGET_PCT])
        exact this
  · constructor
    · by_cases hcond : BO.stop_price_of pl ≥ BO.entry_price_of cp ∨
          (BO.entry_price_of cp - BO.stop_price_of pl) / BO.entry_price_of cp < 2/100
      · simp [BO.calculate_entry_exit_prices, hcond]
      · simp [BO.calculate_entry_exit_prices, hcond]
    · intro e st pf hsome
      unfold BO.calculate_entry_exit_prices at hsome
      by_cases hcond : BO.stop_price_of pl ≥ BO.entry_price_of cp ∨
          (BO.entry_price_of cp - BO.stop_price_of pl) / BO.entry_price_of cp < 2/100
      · simp [hcond] at hsome
      · push_neg at hcond
        simp only [if_neg (by push_neg; exact hcond :
          ¬ (BO.stop_price_of pl ≥ BO.entry_price_of cp ∨
            (BO.entry_price_of cp - BO.stop_price_of pl) / BO.entry_price_of cp
              < 2/100)), Option.some.injEq, Prod.mk.injEq] at hsome
        obtain ⟨he, hst, hpf⟩ := hsome
        subst he
        subst hst
        subst hpf
        refine ⟨hcond.1, hcond.2, ?_⟩
        have := le_pyround2_scale (cp * (1 + BO.ENTRY_SPREAD_PCT)) BO.PROFIT_TARGET_PCT
          (by exact hbo) (by norm_num [BO.PROFIT_TARGET_PCT])
        exact this

/-- C2 witness: the amended validation evaluated at current price $10,
pullback low $9, recent high $9.60 — the plan (entry $10.02, stop $8.91,
target $12.02) is returned and satisfies the invariants. -/
theorem trade_plan_validation_checked :
    (891/100 : ℚ) < 501/50 ∧ ((501/50 : ℚ) - 891/100) / (501/50) ≥ 2/100 ∧
      (501/50 : ℚ) ≤ 601/50 := by
  have h := trade_plan_validation 10 9 (48/5) (by norm_num)
    (by with_unfolding_all decide) (by with_unfolding_all decide)
  exact h.1.2 (501/50) (891/100) (601/50) (by with_unfolding_all decide)

/-- C1: given a valid (non-null) trade plan from
calculate_entry_exit_prices held as the open position, the backtest exit
check on a bar whose low equals the stop price reports a STOP LOSS exit at
the stop price; on a bar whose high equals the profit target (and whose low
stays above the stop) it reports a PROFIT TARGET exit at the target price;
and on any bar satisfying both conditions at once (low ≤ stop ∧
high ≥ target) the stop-loss exit takes priority. -/
theorem stop_priority_roundtrip (cp pl rh e st pf : ℚ) (p : Engine.Position)
    (bars : List Bar) (b : Bar) (t : DateTime)
    (hplan : RC.calculate_entry_exit_prices cp pl rh = some (e, st, pf))
    (hstop : p.stop_price = st) (hprofit : p.profit_price = pf)
    (hlast : bars.getLastD default = b) :
    (b.low = st → Engine.check_exit_conditions (some p) bars t =
      some (st, Engine.ExitReason.stopLoss)) ∧
    (st < b.low → b.high = pf → Engine.check_exit_conditions (some p) bars t =
      some (pf, Engine.ExitReason.profitTarget)) ∧
    (b.low ≤ st → pf ≤ b.high → Engine.check_exit_conditions (some p) bars t =
      some (st, Engine.ExitReason.stopLoss)) := by
  refine ⟨?_, ?_, ?_⟩
  · intro hlow
    unfold Engine.check_exit_conditions
    simp only [hlast]
    simp [RC.check_stop_loss_hit, hstop, hlow]
  · intro hl hh
    unfold Engine.check_exit_conditions
    simp only [hlast]
    simp [RC.check_stop_loss_hit, RC.check_profit_target_hit, hstop, hprofit,
      not_le.mpr hl, hh]
  · intro hl hh
    unfold Engine.check_exit_conditions
    simp only [hlast]
    simp [RC.check_stop_loss_hit, hstop, hl]

/-- C1 witness: the plan (entry $10.02, stop $8.91, target $12.02) from
current price $10, pullback low $9, recent high $9.60, checked against a bar
touching the stop, a bar touching the target, and a bar touching both. -/
theorem stop_priority_roundtrip_checked :
    Engine.check_exit_conditions (some roundtripPosition) [stopTouchBar] noonTime =
      some (891/100, Engine.ExitReason.stopLoss) ∧
    Engine.check_exit_conditions (some roundtripPosition) [targetTouchBar] noonTime =
      some (601/50, Engine.ExitReason.profitTarget) ∧
    Engine.check_exit_conditions (some roundtripPosition) [bothTouchBar] noonTime =
      some (891/100, Engine.ExitReason.stopLoss) := by
  have hplan : RC.calculate_entry_exit_prices 10 9 (48/5) =
      some (501/50, 891/100, 601/50) := by with_unfolding_all decide
  have h1 := stop_priority_roundtrip 10 9 (48/5) (501/50) (891/100) (601/50)
    roundtripPosition [stopTouchBar] stopTouchBar noonTime hplan rfl rfl rfl
  have h2 := stop_priority_roundtrip 10 9 (48/5) (501/50) (891/100) (601/50)
    roundtripPosition [targetTouchBar] targetTouchBar noonTime hplan rfl rfl rfl
  have h3 := stop_priority_roundtrip 10 9 (48/5) (501/50) (891/100) (601/50)
    roundtripPosition [bothTouchBar] bothTouchBar noonTime hplan rfl rfl rfl
  exact ⟨h1.1 (by with_unfolding_all decide),
    h2.2.1 (by with_unfolding_all decide) (by with_unfolding_all decide),
    h3.2.2 (by with_unfolding_all decide) (by with_unfolding_all decide)⟩

/-- Dropping a proper prefix does not change the last element. -/
theorem getLastD_drop_of_lt {α : Type} (l : List α) (d : α) (n : ℕ)
    (h : n < l.length) : (l.drop n).getLastD d = l.getLastD d := by
  rw [List.getLastD_eq_getLast?, List.getLastD_eq_getLast?, List.getLast?_drop,
    if_neg (by omega)]

/-- C8 counterexample: on `retreatBreakoutBars` the breakout pattern
matches (with consolidation $9.90–$10.00) although the final bar's high
($10.06) has retreated from the breakout extreme (the $10.30 highest high
of the 3-bar breakout window) by 2.3% — far beyond the 0.5% tolerance:
the code's tolerance is not measured against the breakout extreme. -/
theorem breakout_tolerance_not_vs_extreme :
    BO.detect_breakout_pattern retreatBreakoutBars = (true, some (99/10), some 10) ∧
    listMax ((takeLast BO.BREAKOUT_MOMENTUM_BARS retreatBreakoutBars).map Bar.high) =
      103/10 ∧
    (retreatBreakoutBars.getLastD default).high < (103/10) * (1 - 5/1000) :=
  ⟨by with_unfolding_all decide, by with_unfolding_all decide,
   by with_unfolding_all decide⟩

/-- Core of the C8 analysis, on the scan body: a match forces the final bar
of the scanned window to close green with a high at least 0.5% above the
returned consolidation high. -/
theorem breakout_scan_final_bar (recent : List Bar) (cl ch : ℚ)
    (h : BO.breakout_scan recent = (true, some cl, some ch)) :
    (recent.getLastD default).close > (recent.getLastD default).open_price ∧
    (recent.getLastD default).high ≥ ch * (1 + 5/1000) := by
  simp only [BO.breakout_scan] at h
  split at h
  · exact absurd h (by simp)
  split at h
  · exact absurd h (by simp)
  split at h
  · exact absurd h (by simp)
  split at h
  · exact absurd h (by simp)
  split at h
  · exact absurd h (by simp)
  split at h
  · exact absurd h (by simp)
  split at h
  · exact absurd h (by simp)
  split at h
  · exact absurd h (by simp)
  rename_i hc1 hc2 hc3 hc4 hc5 hc6 hgreen hretreat
  simp only [Prod.mk.injEq, Option.some.injEq, true_and] at h
  obtain ⟨hcl, hch⟩ := h
  rw [← hch]
  exact ⟨lt_of_not_le hgreen, le_of_not_lt hretreat⟩

/-- C8 (amended): a breakout pattern match requires the final bar to close
above its open (bullish) and its high to be at least 0.5% ABOVE the
consolidation high — the tolerance is measured against the consolidation
high (`last_bar.high ≥ consolidation_high × 1.005`), not against the
breakout extreme; a final bar below that level is rejected, but a final bar
may retreat arbitrarily far from the breakout extreme and still match (as
the counterexample shows). -/
theorem breakout_final_bar_conditions (bars : List Bar) (cl ch : ℚ)
    (h : BO.detect_breakout_pattern bars = (true, some cl, some ch)) :
    (bars.getLastD default).close > (bars.getLastD default).open_price ∧
    (bars.getLastD default).high ≥ ch * (1 + 5/1000) := by
  unfold BO.detect_breakout_pattern at h
  split at h
  · exact absurd h (by simp)
  rename_i hlen
  have hlen' : 10 ≤ bars.length := by simpa [BO.MIN_BARS_FOR_PATTERN] using hlen
  have hcore := breakout_scan_final_bar _ cl ch h
  have hrec : (if bars.length ≥ BO.PATTERN_LOOKBACK_BARS then
      bars.drop (bars.length - BO.PATTERN_LOOKBACK_BARS) else bars).getLastD default =
      bars.getLastD default := by
    split
    · exact getLastD_drop_of_lt bars default _
        (by simp only [BO.PATTERN_LOOKBACK_BARS]; omega)
    · rfl
  rw [hrec] at hcore
  exact hcore

/-- C8 witness: the amended final-bar conditions evaluated on the
counterexample bars whose pattern matches with consolidation high $10.00. -/
theorem breakout_final_bar_conditions_checked :
    (retreatBreakoutBars.getLastD default).close >
      (retreatBreakoutBars.getLastD default).open_price ∧
    (retreatBreakoutBars.getLastD default).high ≥ 10 * (1 + 5/1000) :=
  breakout_final_bar_conditions retreatBreakoutBars (99/10) 10
    (by with_unfolding_all decide)

/-- C10: the backtest engine's entry interface has an affordability gate of
its own — even when all four shared entry conditions pass and
calculate_entry_exit_prices returns a valid plan, check_entry_conditions
rejects the entry (returns no entry tuple, so no position is opened and
capital and the ledger stay untouched) whenever
entry_price × shares exceeds the engine's current cash capital. -/
theorem affordability_gate (capital : ℚ) (bars_10s bars_1m : List Bar)
    (pl rh e st pf : ℚ)
    (hall : RC.check_all_entry_conditions bars_1m ((bars_10s.getLastD default).close) =
      (true, some pl, some rh))
    (hplan : RC.calculate_entry_exit_prices ((bars_10s.getLastD default).close) pl rh =
      some (e, st, pf))
    (hcost : e * ((RC.calculate_position_size capital e st : ℤ) : ℚ) > capital) :
    Engine.check_entry_conditions capital bars_10s bars_1m = none := by
  unfold Engine.check_entry_conditions
  by_cases hlen : bars_1m.length < 10
  · rw [if_pos hlen]
  · rw [if_neg hlen]
    simp only [hall, Option.getD_some, hplan]
    rw [if_neg (by simp)]
    rw [if_pos hcost]

/-- C10 witness: with $50 capital, a $20 current price, and the 30-bar
history on which every condition passes (plan: entry $20.04, stop $10.89,
target $24.05, 4 shares, cost $80.16 > $50), the entry is rejected. -/
theorem affordability_gate_checked :
    Engine.check_entry_conditions 50 affordBars10s affordBars1m = none :=
  affordability_gate 50 affordBars10s affordBars1m (21/2) 11 (501/25) (1089/100)
    (481/20)
    (by with_unfolding_all decide) (by with_unfolding_all decide)
    (by with_unfolding_all decide)

/-- The day-reset phase is the identity on a bar of the tracked date. -/
theorem day_reset_phase_same (s : Engine.EngineState) (d : ℤ)
    (h : s.current_trading_date = some d) : Engine.day_reset_phase s d = s := by
  unfold Engine.day_reset_phase
  rw [if_pos h]

/-- The day-reset phase never touches the position slot. -/
theorem day_reset_phase_position (s : Engine.EngineState) (d : ℤ) :
    (Engine.day_reset_phase s d).position = s.position := by
  unfold Engine.day_reset_phase
  split <;> rfl

/-- The exit phase is the identity when no position is held. -/
theorem exit_phase_none (s : Engine.EngineState) (r : List Bar) (t : DateTime)
    (h : s.position = none) : Engine.exit_phase s r t = s := by
  unfold Engine.exit_phase
  simp only [h]

/-- Closing a position clears the position slot. -/
theorem exit_position_clears (s : Engine.EngineState) (e : ℚ) (t : DateTime)
    (r : Engine.ExitReason) (p : Engine.Position) (hp : s.position = some p) :
    (Engine.exit_position s e t r).position = none := by
  unfold Engine.exit_position
  simp only [hp]

/-- When the exit check fires with reason END OF DAY, the exit phase sets
the day-halt flag and clears the position. -/
theorem exit_phase_eod (s : Engine.EngineState) (r : List Bar) (t : DateTime)
    (p : Engine.Position) (px : ℚ) (hp : s.position = some p)
    (hx : Engine.check_exit_conditions s.position r t =
      some (px, Engine.ExitReason.endOfDay)) :
    (Engine.exit_phase s r t).trading_halted_today = true ∧
    (Engine.exit_phase s r t).position = none := by
  unfold Engine.exit_phase
  rw [hp] at hx
  simp only [hp, hx]
  refine ⟨rfl, ?_⟩
  have := exit_position_clears s px t Engine.ExitReason.endOfDay p hp
  simpa using this

/-- The equity phase only appends to the equity curve: position, trades,
capital, the halt flag and the tracked date are unchanged. -/
theorem equity_phase_fields (s : Engine.EngineState) (b : Bar) (t : DateTime)
    (i : ℕ) :
    (Engine.equity_phase s b t i).position = s.position ∧
    (Engine.equity_phase s b t i).trades = s.trades ∧
    (Engine.equity_phase s b t i).capital = s.capital ∧
    (Engine.equity_phase s b t i).trading_halted_today = s.trading_halted_today ∧
    (Engine.equity_phase s b t i).current_trading_date = s.current_trading_date := by
  unfold Engine.equity_phase
  split <;> simp

/-- A loop iteration on which the exit check reports END OF DAY leaves the
engine halted for the day. -/
theorem backtest_step_eod_halts (b10 b1m : List Bar) (lb l1m i : ℕ)
    (s : Engine.EngineState) (p : Engine.Position) (px : ℚ)
    (hp : s.position = some p)
    (hx : Engine.check_exit_conditions s.position
        ((b10.drop (i - lb)).take (lb + 1)) ((b10.getD i default).date) =
      some (px, Engine.ExitReason.endOfDay)) :
    (Engine.backtest_step b10 b1m lb l1m s i).trading_halted_today = true := by
  simp only [Engine.backtest_step]
  have h1p : (Engine.day_reset_phase s ((b10.getD i default).date.day)).position =
      s.position := day_reset_phase_position s _
  have h1 := exit_phase_eod (Engine.day_reset_phase s ((b10.getD i default).date.day))
    ((b10.drop (i - lb)).take (lb + 1)) ((b10.getD i default).date) p px
    (h1p.trans hp) (by rw [h1p]; exact hx)
  split
  · exact h1.1
  · rw [entry_phase_of_halted _ _ _ _ _ h1.1]
    exact ((equity_phase_fields _ _ _ _).2.2.2.1).trans h1.1

/-- While halted, with no position, a loop iteration on a bar of the
tracked trading date leaves the halt flag set, opens no position, and keeps
the trade ledger, capital, and tracked date unchanged. -/
theorem backtest_step_halted_same_day (b10 b1m : List Bar) (lb l1m i : ℕ)
    (s : Engine.EngineState) (d : ℤ)
    (hh : s.trading_halted_today = true) (hp : s.position = none)
    (hd : s.current_trading_date = some d)
    (hday : (b10.getD i default).date.day = d) :
    (Engine.backtest_step b10 b1m lb l1m s i).trading_halted_today = true ∧
    (Engine.backtest_step b10 b1m lb l1m s i).position = none ∧
    (Engine.backtest_step b10 b1m lb l1m s i).trades = s.trades ∧
    (Engine.backtest_step b10 b1m lb l1m s i).capital = s.capital ∧
    (Engine.backtest_step b10 b1m lb l1m s i).current_trading_date = some d := by
  simp only [Engine.backtest_step]
  rw [hday, day_reset_phase_same s d hd, exit_phase_none _ _ _ hp]
  split
  · exact ⟨hh, hp, rfl, rfl, hd⟩
  · rw [entry_phase_of_halted _ _ _ _ _ hh]
    have hq := equity_phase_fields s (b10.getD i default) ((b10.getD i default).date) i
    exact ⟨hq.2.2.2.1.trans hh, hq.1.trans hp, hq.2.1, hq.2.2.1, hq.2.2.2.2.trans hd⟩

/-- Folding the loop over any run of same-date bars from a halted,
position-free state preserves the halt and enters nothing. -/
theorem backtest_fold_halted (b10 b1m : List Bar) (lb l1m : ℕ) (idxs : List ℕ)
    (s : Engine.EngineState) (d : ℤ)
    (hh : s.trading_halted_today = true) (hp : s.position = none)
    (hd : s.current_trading_date = some d)
    (hdays : ∀ i ∈ idxs, (b10.getD i default).date.day = d) :
    (idxs.foldl (Engine.backtest_step b10 b1m lb l1m) s).trading_halted_today = true ∧
    (idxs.foldl (Engine.backtest_step b10 b1m lb l1m) s).position = none ∧
    (idxs.foldl (Engine.backtest_step b10 b1m lb l1m) s).trades = s.trades ∧
    (idxs.foldl (Engine.backtest_step b10 b1m lb l1m) s).capital = s.capital ∧
    (idxs.foldl (Engine.backtest_step b10 b1m lb l1m) s).current_trading_date = some d := by
  induction idxs generalizing s with
  | nil => exact ⟨hh, hp, rfl, rfl, hd⟩
  | cons i rest ih =>
    have hstep := backtest_step_halted_same_day b10 b1m lb l1m i s d hh hp hd
      (hdays i (List.mem_cons_self i rest))
    have hrest := ih (Engine.backtest_step b10 b1m lb l1m s i)
      hstep.1 hstep.2.1 hstep.2.2.2.2
      (fun j hj => hdays j (List.mem_cons_of_mem i hj))
    rw [List.foldl_cons]
    exact ⟨hrest.1, hrest.2.1, hrest.2.2.1.trans hstep.2.2.1,
      hrest.2.2.2.1.trans hstep.2.2.2.1, hrest.2.2.2.2⟩

/-- C4: (1) on any loop iteration where the exit check fires with reason
END OF DAY, the engine's trading_halted_today flag is set; (2) from a
halted state with no position, running the loop over any further bars of
the tracked calendar date opens no position and changes neither the trade
ledger nor the capital — regardless of whether entry conditions would pass
— and the flag stays set (it is cleared only by the day-reset on a bar
whose calendar date differs from the tracked one, by definition of
day_reset_phase). -/
theorem end_of_day_halt :
    (∀ (b10 b1m : List Bar) (lb l1m i : ℕ) (s : Engine.EngineState)
        (p : Engine.Position) (px : ℚ),
      s.position = some p →
      Engine.check_exit_conditions s.position
          ((b10.drop (i - lb)).take (lb + 1)) ((b10.getD i default).date) =
        some (px, Engine.ExitReason.endOfDay) →
      (Engine.backtest_step b10 b1m lb l1m s i).trading_halted_today = true) ∧
    (∀ (b10 b1m : List Bar) (lb l1m : ℕ) (idxs : List ℕ)
        (s : Engine.EngineState) (d : ℤ),
      s.trading_halted_today = true → s.position = none →
      s.current_trading_date = some d →
      (∀ i ∈ idxs, (b10.getD i default).date.day = d) →
      (idxs.foldl (Engine.backtest_step b10 b1m lb l1m) s).trading_halted_today = true ∧
      (idxs.foldl (Engine.backtest_step b10 b1m lb l1m) s).position = none ∧
      (idxs.foldl (Engine.backtest_step b10 b1m lb l1m) s).trades = s.trades ∧
      (idxs.foldl (Engine.backtest_step b10 b1m lb l1m) s).capital = s.capital) := by
  constructor
  · intro b10 b1m lb l1m i s p px hp hx
    exact backtest_step_eod_halts b10 b1m lb l1m i s p px hp hx
  · intro b10 b1m lb l1m idxs s d hh hp hd hdays
    have h := backtest_fold_halted b10 b1m lb l1m idxs s d hh hp hd hdays
    exact ⟨h.1, h.2.1, h.2.2.1, h.2.2.2.1⟩

/-- C4 witness: a 15:50 bar triggers the END OF DAY exit and halts the
engine; two further same-day bars from the halted state leave it flat with
an unchanged ledger and capital. -/
theorem end_of_day_halt_checked :
    (Engine.backtest_step [eodBar] [] 360 390 eodState 0).trading_halted_today = true ∧
    (([0, 1].foldl (Engine.backtest_step [day0Bar, day0Bar] [] 360 390)
        haltedState).position = none ∧
     ([0, 1].foldl (Engine.backtest_step [day0Bar, day0Bar] [] 360 390)
        haltedState).trades = haltedState.trades ∧
     ([0, 1].foldl (Engine.backtest_step [day0Bar, day0Bar] [] 360 390)
        haltedState).capital = haltedState.capital) := by
  constructor
  · exact end_of_day_halt.1 [eodBar] [] 360 390 0 eodState eodPosition (11/2) rfl
      (by with_unfolding_all decide)
  · have h := end_of_day_halt.2 [day0Bar, day0Bar] [] 360 390 [0, 1] haltedState 0
      rfl rfl rfl (by with_unfolding_all decide)
    exact ⟨h.2.1, h.2.2.1, h.2.2.2⟩
